import Mathlib

/-!
Verification development for the BooleneAcademy learning-platform front end.

The client code is shallowly embedded: the module-level token cache and the
browser localStorage become an explicit `ClientState`; browser built-ins
(`JSON.stringify`, `JSON.parse`, `atob`-based JWT payload decoding, and
`Date.now()`) are collected in a `JsEnv` record supplied to every function;
HTTP responses are passed in as explicit arguments; side effects (toasts,
issued requests, redirects/navigations) are collected in effect lists.
-/

namespace Boolene

/-- Token pair stored by the client (`AuthTokens` in `src/lib/api.ts`).
An `access_token` of `""` models a falsy/absent field of the parsed blob. -/
structure AuthTokens where
  access_token : String
  token_type : String
deriving Repr, DecidableEq

/-- The JWT payload fields the client reads after `JSON.parse(atob(...))`.
`exp` is in seconds; `none` models an absent field.  `is_admin` is
`some true` / `some false` for a boolean field and `none` when the field is
absent or not a boolean (so that `payload.is_admin === true` is
`is_admin = some true`). -/
structure JwtPayload where
  exp : Option Int
  is_admin : Option Bool
  user_id : Option Int
deriving Repr, DecidableEq

/-- Browser built-ins the client calls: JSON serialization of the token pair,
JSON parsing of the stored blob (`none` models `JSON.parse` throwing),
JWT payload decoding `JSON.parse(atob(token.split('.')[1]))` (`none` models a
throw anywhere in that chain), and the wall clock `Date.now()` in
milliseconds. -/
structure JsEnv where
  stringifyTokens : AuthTokens → String
  parseTokens : String → Option AuthTokens
  decodePayload : String → Option JwtPayload
  now : Int

/-- Model of `localStorage`, modelled as an association list keyed by strings. -/
abbrev Storage := List (String × String)

/-- Model of `localStorage.getItem` (`null` becomes `none`). -/
def lsGet (st : Storage) (k : String) : Option String :=
  (st.find? (fun p => p.1 = k)).map Prod.snd

/-- Model of `localStorage.setItem`. -/
def lsSet (st : Storage) (k v : String) : Storage :=
  (k, v) :: st.filter (fun p => p.1 ≠ k)

/-- Model of `localStorage.removeItem`. -/
def lsRemove (st : Storage) (k : String) : Storage :=
  st.filter (fun p => p.1 ≠ k)

/-- The client's mutable state: the browser storage plus the module-level
`authTokens` variable of `src/lib/api.ts`. -/
structure ClientState where
  storage : Storage
  authTokens : Option AuthTokens
deriving Repr, DecidableEq

/-- Amount/mobile pair sent in the body of the deposit request. -/
structure DepositBody where
  amount : Rat
  mobile : String
deriving Repr, DecidableEq

/-- Observable side effects of a client operation, in program order. -/
inductive Effect where
  | toast (title description : String)
  | request (endpoint : String)
  | depositRequest (body : DepositBody)
  | redirect (path : String)
  | navigate (path : String)
deriving Repr, DecidableEq

/-- Whether an effect is an issued HTTP request. -/
def Effect.isRequest : Effect → Bool
  | .request _ => true
  | .depositRequest _ => true
  | _ => false

/-- Number of HTTP requests in an effect list. -/
def requestCount (effs : List Effect) : Nat :=
  (effs.filter Effect.isRequest).length

/-- Whether an effect is a redirect or navigation. -/
def Effect.isRedirect : Effect → Bool
  | .redirect _ => true
  | .navigate _ => true
  | _ => false

/-- Model of `loadTokensFromStorage` (`src/lib/api.ts:53`): read the `"auth_tokens"`
key; a missing key or one of the falsy/sentinel values `""`, `"undefined"`,
`"null"` yields `false` without touching state; a parse failure (the `catch`
branch) removes the key and yields `false`, leaving the in-memory variable as
it was; a successful parse overwrites the in-memory variable and yields
`true`. -/
def loadTokensFromStorage (env : JsEnv) (s : ClientState) : Bool × ClientState :=
  match lsGet s.storage "auth_tokens" with
  | none => (false, s)
  | some v =>
    if v = "" ∨ v = "undefined" ∨ v = "null" then (false, s)
    else
      match env.parseTokens v with
      | some t => (true, { s with authTokens := some t })
      | none => (false, { s with storage := lsRemove s.storage "auth_tokens" })

/-- Model of `setAuthTokens` (`src/lib/api.ts:73`): set the in-memory variable and
either write the JSON serialization under `"auth_tokens"` or remove the
key. -/
def setAuthTokens (env : JsEnv) (s : ClientState) (t : Option AuthTokens) : ClientState :=
  match t with
  | some tk =>
    { authTokens := some tk
      storage := lsSet s.storage "auth_tokens" (env.stringifyTokens tk) }
  | none =>
    { authTokens := none
      storage := lsRemove s.storage "auth_tokens" }

/-- Header pair returned by `getAuthHeaders`. -/
structure Headers where
  authorization : Option String
  contentType : Option String
deriving Repr, DecidableEq

/-- Model of `getAuthHeaders` (`src/lib/api.ts:82`): always reload from storage first;
with no usable token (`!authTokens?.access_token`), remove the key and return
empty headers; otherwise return the `Authorization` and `Content-Type`
headers built from the freshly loaded token. -/
def getAuthHeaders (env : JsEnv) (s : ClientState) : Headers × ClientState :=
  let s1 := (loadTokensFromStorage env s).2
  match s1.authTokens with
  | some tk =>
    if tk.access_token = "" then
      (⟨none, none⟩, { s1 with storage := lsRemove s1.storage "auth_tokens" })
    else
      (⟨some (tk.token_type ++ " " ++ tk.access_token), some "application/json"⟩, s1)
  | none => (⟨none, none⟩, { s1 with storage := lsRemove s1.storage "auth_tokens" })

/-- Model of `isAuthenticated` (`src/lib/api.ts:101`): reload from storage (returning
`false` when the reload fails); reject a missing or empty `access_token`;
decode the JWT payload, clearing both the storage key and the in-memory
variable when decoding throws or when `Date.now() >= payload.exp * 1000`.
A payload without `exp` is never considered expired, because in JavaScript
`Date.now() >= NaN` is `false`. -/
def isAuthenticated (env : JsEnv) (s : ClientState) : Bool × ClientState :=
  let r := loadTokensFromStorage env s
  if r.1 = false then (false, r.2)
  else
    let s1 := r.2
    match s1.authTokens with
    | none => (false, s1)
    | some tk =>
      if tk.access_token = "" then (false, s1)
      else
        match env.decodePayload tk.access_token with
        | none => (false, ⟨lsRemove s1.storage "auth_tokens", none⟩)
        | some p =>
          match p.exp with
          | some e =>
            if env.now ≥ e * 1000 then (false, ⟨lsRemove s1.storage "auth_tokens", none⟩)
            else (true, s1)
          | none => (true, s1)

/-- Model of `checkTokenExists` in the auth context (`use-auth`): the context's
`isAuthenticated` flag is mere presence of a non-sentinel `"auth_tokens"`
entry, with no expiry check. -/
def checkTokenExists (st : Storage) : Bool :=
  match lsGet st "auth_tokens" with
  | none => false
  | some v => v ≠ "" && v ≠ "undefined" && v ≠ "null"

/-- Model of `getUserIdFromToken` (`src/lib/api.ts:336`): decode `payload.user_id`
from the in-memory token, `undefined` on any failure. -/
def getUserIdFromToken (env : JsEnv) (s : ClientState) : Option Int :=
  match s.authTokens with
  | none => none
  | some tk =>
    if tk.access_token = "" then none
    else
      match env.decodePayload tk.access_token with
      | none => none
      | some p => p.user_id

/-- Model of `isUserAdmin` (`src/lib/api.ts:348`): decode the in-memory token's
payload and test `payload.is_admin === true`; any missing token or decode
failure yields `false`.  No reload from storage happens here. -/
def isUserAdmin (env : JsEnv) (s : ClientState) : Bool :=
  match s.authTokens with
  | none => false
  | some tk =>
    if tk.access_token = "" then false
    else
      match env.decodePayload tk.access_token with
      | none => false
      | some p => p.is_admin = some true

/-- Shape of the error value reaching `handleApiError`: an optional HTTP
status on the error itself, an optional `response.status`, and the optional
string fields probed for a message.  `none` models an absent field; `some ""`
models a present but falsy (empty) string. -/
structure ApiError where
  status : Option Nat
  responseStatus : Option Nat
  responseDetail : Option String
  detail : Option String
  message : Option String
deriving Repr, DecidableEq

/-- JavaScript truthiness of an optional string field. -/
def truthy : Option String → Bool
  | some v => v ≠ ""
  | none => false

/-- The 401 test of `handleApiError`:
`error.status === 401 || error.response?.status === 401`. -/
def is401 (e : ApiError) : Bool :=
  e.status = some 401 || e.responseStatus = some 401

/-- Message extraction of `handleApiError` (`src/lib/api.ts:159`):
`error.response?.data?.detail`, else `error.detail`, else `error.message`,
else the generic default. -/
def extractErrorMessage (e : ApiError) : String :=
  if truthy e.responseDetail then e.responseDetail.getD ""
  else if truthy e.detail then e.detail.getD ""
  else if truthy e.message then e.message.getD ""
  else "Ocorreu um erro na requisição"

/-- Result of `handleApiError`: the new client state, the effects, and the
message of the `Error` it throws. -/
structure ErrOutcome where
  state : ClientState
  effects : List Effect
  thrown : String
deriving Repr, DecidableEq

/-- Model of `handleApiError` (`src/lib/api.ts:140`): a 401 clears the tokens via
`setAuthTokens(null)`, shows the session-expired toast, schedules a redirect
to `/login` (`setTimeout`, 1s) and throws; any other error shows a toast with
the extracted message and throws an `Error` carrying exactly that message. -/
def handleApiError (env : JsEnv) (s : ClientState) (e : ApiError) : ErrOutcome :=
  if is401 e then
    { state := setAuthTokens env s none
      effects := [.toast "Sessão expirada" "Por favor faça login novamente",
                  .redirect "/login"]
      thrown := "Sessão expirada. Por favor faça login novamente." }
  else
    { state := s
      effects := [.toast "Erro" (extractErrorMessage e)]
      thrown := extractErrorMessage e }

/-- Result of one API wrapper call: new state, effects, and either the parsed
value or the message of the propagated error. -/
structure CallOutcome (α : Type) where
  state : ClientState
  effects : List Effect
  result : Except String α
deriving Repr

/-- The shared shape of the fetch wrappers in `src/lib/api.ts` that attach
`getAuthHeaders()`, issue one request, and funnel every failure (non-ok
response body or thrown fetch error) into `handleApiError`. -/
def standardApiCall {α : Type} (env : JsEnv) (s : ClientState) (endpoint : String)
    (resp : Except ApiError α) : CallOutcome α :=
  let s1 := (getAuthHeaders env s).2
  match resp with
  | .ok v => { state := s1, effects := [.request endpoint], result := .ok v }
  | .error e =>
    let o := handleApiError env s1 e
    { state := o.state, effects := .request endpoint :: o.effects, result := .error o.thrown }

/-- Model of `getUserProfile` (`src/lib/api.ts:266`). -/
def getUserProfile {α : Type} (env : JsEnv) (s : ClientState)
    (resp : Except ApiError α) : CallOutcome α :=
  standardApiCall env s "/users/profile" resp

/-- Model of `updateProfilePicture` (`src/lib/api.ts:283`). -/
def updateProfilePicture {α : Type} (env : JsEnv) (s : ClientState)
    (resp : Except ApiError α) : CallOutcome α :=
  standardApiCall env s "/users/profile/picture" resp

/-- Model of `purchaseCourse` (`src/lib/api.ts:450`). -/
def purchaseCourse {α : Type} (env : JsEnv) (s : ClientState) (courseId : Nat)
    (resp : Except ApiError α) : CallOutcome α :=
  standardApiCall env s ("/courses/" ++ toString courseId ++ "/purchase") resp

/-- Model of `downloadCourse` (`src/lib/api.ts:471`). -/
def downloadCourse {α : Type} (env : JsEnv) (s : ClientState) (courseId : Nat)
    (resp : Except ApiError α) : CallOutcome α :=
  standardApiCall env s ("/courses/" ++ toString courseId ++ "/download") resp

/-- Model of `toggleCourseLike` (`src/lib/api.ts:488`). -/
def toggleCourseLike {α : Type} (env : JsEnv) (s : ClientState) (courseId : Nat)
    (resp : Except ApiError α) : CallOutcome α :=
  standardApiCall env s ("/courses/" ++ toString courseId ++ "/like") resp

/-- Model of `getWalletBalance` (`src/lib/api.ts:507`). -/
def getWalletBalance {α : Type} (env : JsEnv) (s : ClientState)
    (resp : Except ApiError α) : CallOutcome α :=
  standardApiCall env s "/users/wallet/balance" resp

/-- Model of `getWalletTransactions` (`src/lib/api.ts:524`). -/
def getWalletTransactions {α : Type} (env : JsEnv) (s : ClientState)
    (resp : Except ApiError α) : CallOutcome α :=
  standardApiCall env s "/users/wallet/transactions" resp

/-- Model of `verifyDeposit` (`src/lib/api.ts:569`). -/
def verifyDeposit {α : Type} (env : JsEnv) (s : ClientState) (paymentRef : String)
    (resp : Except ApiError α) : CallOutcome α :=
  standardApiCall env s ("/users/wallet/verify-deposit/" ++ paymentRef) resp

/-- Model of `promoteUserToAdmin` (`src/lib/api.ts:588`). -/
def promoteUserToAdmin {α : Type} (env : JsEnv) (s : ClientState) (userId : Nat)
    (resp : Except ApiError α) : CallOutcome α :=
  standardApiCall env s ("/admin/promote/" ++ toString userId) resp

/-- Model of `listUsers` (`src/lib/api.ts:606`). -/
def listUsers {α : Type} (env : JsEnv) (s : ClientState)
    (resp : Except ApiError α) : CallOutcome α :=
  standardApiCall env s "/admin/users" resp

/-- Model of `deleteUser` (`src/lib/api.ts:623`). -/
def deleteUser {α : Type} (env : JsEnv) (s : ClientState) (userId : Nat)
    (resp : Except ApiError α) : CallOutcome α :=
  standardApiCall env s ("/admin/users/" ++ toString userId) resp

/-- JavaScript `s.startsWith(p)`, computed on the character lists. -/
def jsStartsWith (s p : String) : Bool :=
  List.isPrefixOf p.data s.data

/-- JavaScript `s.endsWith(p)`, computed on the character lists. -/
def jsEndsWith (s p : String) : Bool :=
  List.isSuffixOf p.data s.data

/-- JavaScript `s.substring(n)`: drop the first `n` characters. -/
def jsDrop (s : String) (n : Nat) : String :=
  String.mk (s.data.drop n)

/-- The request body built by `initializeDeposit` (`src/lib/api.ts:541`):
`mobile.startsWith("+265") ? mobile.substring(4) : mobile`, and the amount
forwarded unchanged. -/
def depositBodyOf (amount : Rat) (mobile : String) : DepositBody :=
  { amount := amount
    mobile := if jsStartsWith mobile "+265" then jsDrop mobile 4 else mobile }

/-- Model of `initializeDeposit` (`src/lib/api.ts:541`): build the body, attach auth
headers, issue one request, and route failures to `handleApiError`. -/
def depositCall {α : Type} (env : JsEnv) (s : ClientState) (amount : Rat)
    (mobile : String) (resp : Except ApiError α) : CallOutcome α :=
  let body := depositBodyOf amount mobile
  let s1 := (getAuthHeaders env s).2
  match resp with
  | .ok v => { state := s1, effects := [.depositRequest body], result := .ok v }
  | .error e =>
    let o := handleApiError env s1 e
    { state := o.state, effects := .depositRequest body :: o.effects, result := .error o.thrown }

/-- Model of `login` (`src/lib/api.ts:181`): on success, remove stale tokens and store
the received pair under `"auth_tokens"`, also setting the in-memory variable;
on failure, route to `handleApiError`. -/
def login (env : JsEnv) (s : ClientState)
    (resp : Except ApiError AuthTokens) : CallOutcome AuthTokens :=
  match resp with
  | .ok data =>
    { state :=
        { storage := lsSet (lsRemove s.storage "auth_tokens") "auth_tokens" (env.stringifyTokens data)
          authTokens := some data }
      effects := [.request "/auth/token"]
      result := .ok data }
  | .error e =>
    let o := handleApiError env s e
    { state := o.state, effects := .request "/auth/token" :: o.effects, result := .error o.thrown }

/-- Model of `getCourses` (`src/lib/api.ts:310`): an unauthenticated GET whose query
parameter is the user id when `isAuthenticated()` holds and
`getUserIdFromToken()` is truthy (so `0` and `undefined` both drop the
parameter); every failure is caught locally, logged, and replaced by the
empty list — nothing propagates and no logout happens. -/
def getCourses {α : Type} (env : JsEnv) (s : ClientState)
    (resp : Except ApiError (List α)) : CallOutcome (List α) :=
  let r := isAuthenticated env s
  let uid := if r.1 then getUserIdFromToken env r.2 else none
  let q := match uid with
    | some u => if u = 0 then "" else "?user_id=" ++ toString u
    | none => ""
  match resp with
  | .ok v => { state := r.2, effects := [.request ("/courses/" ++ q)], result := .ok v }
  | .error _ => { state := r.2, effects := [.request ("/courses/" ++ q)], result := .ok [] }

/-- A JavaScript number as produced by `Number(string)`: `NaN`, a finite
rational, or an infinity. -/
inductive JsNum where
  | nan
  | num (q : Rat)
  | posInf
  | negInf
deriving Repr, DecidableEq

/-- Model of `isNaN(n)`. -/
def JsNum.isNaN : JsNum → Bool
  | .nan => true
  | _ => false

/-- Model of `n > 0` (false for `NaN`, as in JavaScript). -/
def JsNum.gt0 : JsNum → Bool
  | .num q => decide (0 < q)
  | .posInf => true
  | _ => false

/-- Model of `Number.isInteger(n)`. -/
def JsNum.isInteger : JsNum → Bool
  | .num q => decide (q.den = 1)
  | _ => false

/-- JavaScript falsiness of a number (`NaN` and `0` are falsy). -/
def JsNum.falsy : JsNum → Bool
  | .nan => true
  | .num q => decide (q = 0)
  | _ => false

/-- Metadata of a selected `File`: its `name` and MIME `type`. -/
structure FileMeta where
  name : String
  type : String
deriving Repr, DecidableEq

/-- The response `createCourse` sees: HTTP status plus the optional `detail`
field of the parsed error body (`none` when body parsing fails or the field
is absent). -/
structure CreateResponse where
  status : Nat
  detail : Option String
deriving Repr, DecidableEq

/-- Model of `response.ok`. -/
def respOk (status : Nat) : Bool :=
  200 ≤ status && status < 300

/-- Model of `createCourse` (`src/lib/api.ts:359`): reload tokens; reject any falsy
field (`""` strings, `0`/`NaN` numbers, missing files) with a thrown error;
reject a missing in-memory token; otherwise issue the request.  A 401 answer
clears the tokens via `setAuthTokens(null)` and throws a session-expired
error (with no redirect); any other failing answer throws the body's `detail`
when truthy, else a generic message.  All other failures propagate
unchanged. -/
def createCourse (env : JsEnv) (s : ClientState) (title description : String)
    (price duration_minutes : JsNum) (cover_image course_file : Option FileMeta)
    (resp : CreateResponse) : CallOutcome Unit :=
  let s1 := (loadTokensFromStorage env s).2
  if title = "" ∨ description = "" ∨ price.falsy ∨ duration_minutes.falsy ∨
      cover_image = none ∨ course_file = none then
    { state := s1, effects := [], result := .error "Todos os campos são obrigatórios" }
  else
    match s1.authTokens with
    | none =>
      { state := s1, effects := [], result := .error "Não autenticado. Faça login novamente." }
    | some tk =>
      if tk.access_token = "" then
        { state := s1, effects := [], result := .error "Não autenticado. Faça login novamente." }
      else if respOk resp.status then
        { state := s1, effects := [.request "/courses"], result := .ok () }
      else if resp.status = 401 then
        { state := setAuthTokens env s1 none
          effects := [.request "/courses"]
          result := .error "Sessão expirada. Faça login novamente." }
      else
        { state := s1
          effects := [.request "/courses"]
          result := .error (if truthy resp.detail then resp.detail.getD "" else "Falha ao criar o curso") }

/-- Price validator of the course form (`CourseForm.tsx:24`): the string is
accepted when `Number(val)` is not `NaN` and is `> 0`. -/
def priceValid (toNumber : String → JsNum) (v : String) : Bool :=
  let n := toNumber v
  !n.isNaN && n.gt0

/-- Duration validator of the course form (`CourseForm.tsx:31`): additionally
requires `Number.isInteger`. -/
def durationValid (toNumber : String → JsNum) (v : String) : Bool :=
  let n := toNumber v
  !n.isNaN && n.gt0 && n.isInteger

/-- Amount validator of the wallet deposit form: same check as the price. -/
def depositAmountValid (toNumber : String → JsNum) (v : String) : Bool :=
  let n := toNumber v
  !n.isNaN && n.gt0

/-- Title and description validators of the course form (zod `min(3)` and
`min(10)`). -/
def titleValid (v : String) : Bool := 3 ≤ v.length

/-- Description validator of the course form. -/
def descriptionValid (v : String) : Bool := 10 ≤ v.length

/-- Whole-schema validation of the course form: the zod resolver only lets
`handleSubmit` invoke `onSubmit` when every field validator accepts. -/
def courseFormValidates (toNumber : String → JsNum)
    (title description price duration : String) : Bool :=
  titleValid title && descriptionValid description &&
    priceValid toNumber price && durationValid toNumber duration

/-- The cover-image MIME check of the course form:
`['image/png', 'image/jpeg', 'image/jpg'].includes(t)`. -/
def imageTypeAllowed (t : String) : Bool :=
  t = "image/png" || t = "image/jpeg" || t = "image/jpg"

/-- Component-local state of `CourseForm` at submission time. -/
structure CourseFormState where
  isLoading : Bool
  submitted : Bool
  coverImage : Option FileMeta
  courseFile : Option FileMeta
deriving Repr, DecidableEq

/-- Result of a `CourseForm` submission attempt. -/
structure SubmitOutcome where
  state : ClientState
  effects : List Effect
  calledCreate : Bool
deriving Repr, DecidableEq

/-- Model of `CourseForm.onSubmit` (`CourseForm.tsx:74`): silently return while a
submission is in flight or completed; check `isAuthenticated()` with a
session-expired toast; require a cover image and a course file with toasts;
require a `.zip` course-file name and an allowed cover MIME type with
toasts; only then call `createCourse`, toasting its error message on
failure. -/
def onSubmit (env : JsEnv) (s : ClientState) (fs : CourseFormState)
    (toNumber : String → JsNum) (title description price duration : String)
    (resp : CreateResponse) : SubmitOutcome :=
  if fs.isLoading || fs.submitted then
    { state := s, effects := [], calledCreate := false }
  else
    let r := isAuthenticated env s
    if r.1 = false then
      { state := r.2
        effects := [.toast "Sessão expirada" "Sua sessão expirou. Por favor, faça login novamente."]
        calledCreate := false }
    else
      match fs.coverImage with
      | none =>
        { state := r.2
          effects := [.toast "Imagem obrigatória" "Você deve fazer upload de uma imagem de capa"]
          calledCreate := false }
      | some cover =>
        match fs.courseFile with
        | none =>
          { state := r.2
            effects := [.toast "Arquivo obrigatório" "Você deve fazer upload de um arquivo de curso (ZIP)"]
            calledCreate := false }
        | some file =>
          if jsEndsWith file.name ".zip" = false then
            { state := r.2
              effects := [.toast "Formato inválido" "O arquivo do curso deve ser um arquivo ZIP"]
              calledCreate := false }
          else if imageTypeAllowed cover.type = false then
            { state := r.2
              effects := [.toast "Formato inválido" "A imagem de capa deve ser PNG ou JPEG"]
              calledCreate := false }
          else
            let o := createCourse env r.2 title description
              (toNumber price) (toNumber duration) (some cover) (some file) resp
            match o.result with
            | .ok _ => { state := o.state, effects := o.effects, calledCreate := true }
            | .error m =>
              { state := o.state
                effects := o.effects ++ [.toast "Erro ao criar curso" m]
                calledCreate := true }

/-- The form pipeline: `handleSubmit(onSubmit)` runs `onSubmit` only when the
zod schema accepts every field; otherwise submission is blocked with field
messages and no client code runs. -/
def submitCourseForm (env : JsEnv) (s : ClientState) (fs : CourseFormState)
    (toNumber : String → JsNum) (title description price duration : String)
    (resp : CreateResponse) : SubmitOutcome :=
  if courseFormValidates toNumber title description price duration then
    onSubmit env s fs toNumber title description price duration resp
  else
    { state := s, effects := [], calledCreate := false }

/-- Result of a UI event handler: new client state plus effects. -/
structure HandlerOutcome where
  state : ClientState
  effects : List Effect
deriving Repr, DecidableEq

/-- Model of `CourseCard.handleLike` (`CourseCard.tsx:39`): the context flag
`ctxAuth` is the auth context's `isAuthenticated` value, which the provider
computes as `checkTokenExists()`; when it is false a Restricted Action toast
is shown and nothing is sent; otherwise `toggleCourseLike` runs and its
failure is only logged. -/
def handleLike (env : JsEnv) (s : ClientState) (ctxAuth : Bool) (courseId : Nat)
    (resp : Except ApiError Unit) : HandlerOutcome :=
  if ctxAuth = false then
    { state := s, effects := [.toast "Restricted Action" "Please login to like courses"] }
  else
    let o := toggleCourseLike env s courseId resp
    { state := o.state, effects := o.effects }

/-- Model of `CourseCard.handlePurchase` (`CourseCard.tsx:62`): same gate; a success
additionally toasts a confirmation, a failure is only logged. -/
def handlePurchase (env : JsEnv) (s : ClientState) (ctxAuth : Bool) (courseId : Nat)
    (resp : Except ApiError Unit) : HandlerOutcome :=
  if ctxAuth = false then
    { state := s, effects := [.toast "Restricted Action" "Please login to purchase courses"] }
  else
    let o := purchaseCourse env s courseId resp
    match o.result with
    | .ok _ =>
      { state := o.state
        effects := o.effects ++ [.toast "Course purchased!" "You can now download this course"] }
    | .error _ => { state := o.state, effects := o.effects }

/-- Model of `CourseCard.handleDownload` (`CourseCard.tsx:87`): same gate; a failure
toasts a download error. -/
def handleDownload (env : JsEnv) (s : ClientState) (ctxAuth : Bool) (courseId : Nat)
    (resp : Except ApiError Unit) : HandlerOutcome :=
  if ctxAuth = false then
    { state := s, effects := [.toast "Restricted Action" "Please login to download courses"] }
  else
    let o := downloadCourse env s courseId resp
    match o.result with
    | .ok _ => { state := o.state, effects := o.effects }
    | .error _ =>
      { state := o.state
        effects := o.effects ++ [.toast "Download Error" "You need to purchase the course first"] }

/-- Model of `Wallet.onDepositSubmit` (wallet page): no token check of its own; it
always calls `initializeDeposit` with `Number(values.amount)` and the raw
mobile string, toasting on success and only logging on failure. -/
def onDepositSubmit (env : JsEnv) (s : ClientState) (amount : Rat) (mobile : String)
    (resp : Except ApiError Unit) : HandlerOutcome :=
  let o := depositCall env s amount mobile resp
  match o.result with
  | .ok _ =>
    { state := o.state
      effects := o.effects ++ [.toast "Deposit Initiated" "The amount has been added to your wallet."] }
  | .error _ => { state := o.state, effects := o.effects }

/-- Model of `Profile.handleProfilePictureUpload` (`Profile.tsx:48`): requires only
that a file was selected (with a toast otherwise); no token check; calls
`updateProfilePicture`, toasting on success and only logging on failure. -/
def handleProfilePictureUpload (env : JsEnv) (s : ClientState)
    (profilePicture : Option FileMeta) (resp : Except ApiError Unit) : HandlerOutcome :=
  match profilePicture with
  | none =>
    { state := s
      effects := [.toast "Nenhum arquivo selecionado" "Selecione uma imagem para fazer upload"] }
  | some _ =>
    let o := updateProfilePicture env s resp
    match o.result with
    | .ok _ =>
      { state := o.state
        effects := o.effects ++ [.toast "Foto atualizada" "Sua foto de perfil foi atualizada com sucesso"] }
    | .error _ => { state := o.state, effects := o.effects }

/-- Result of `AuthProvider.refreshUser`: state, the user value it sets, and
effects. -/
structure RefreshOutcome (α : Type) where
  state : ClientState
  user : Option α
  effects : List Effect
deriving Repr

/-- Model of `AuthProvider.refreshUser` (auth context): when `isAuthenticated()` is
false the user is reset to `null` and the function returns with no toast and
no logout; otherwise the profile is fetched, and a fetch failure or a falsy
profile triggers the catch: user reset, `logout()` (clearing the tokens), and
a session-expired toast. -/
def refreshUser {α : Type} (env : JsEnv) (s : ClientState)
    (resp : Except ApiError (Option α)) : RefreshOutcome α :=
  let r := isAuthenticated env s
  if r.1 = false then { state := r.2, user := none, effects := [] }
  else
    let o := getUserProfile env r.2 resp
    match o.result with
    | .ok (some u) => { state := o.state, user := some u, effects := o.effects }
    | .ok none =>
      { state := setAuthTokens env o.state none
        user := none
        effects := o.effects ++ [.toast "Sessão expirada" "Por favor faça login novamente"] }
    | .error _ =>
      { state := setAuthTokens env o.state none
        user := none
        effects := o.effects ++ [.toast "Sessão expirada" "Por favor faça login novamente"] }

/-- The navbar's link list (`Navbar.tsx:221`): `Cursos` always, `Carteira`
when the context flag is set, `Admin` when the context's `isAdmin` is set.
The provider computes `isAdmin` as `isUserAdmin()` and `isAuthenticated` as
`checkTokenExists()` on every render. -/
def navLinks (ctxAuth isAdmin : Bool) : List (String × String) :=
  [("Cursos", "/")] ++
    (if ctxAuth then [("Carteira", "/wallet")] else []) ++
    (if isAdmin then [("Admin", "/admin")] else [])

/-- Decision of the admin page's access check. -/
inductive AdminDecision where
  | toLogin
  | denied
  | granted
deriving Repr, DecidableEq

/-- Model of `Admin.checkAccess` (`Admin.tsx:52`): no token in the context flag sends
the visitor to the login page; a token without the admin claim navigates home
with an access-denied toast; only then is the user list loaded.  The decision
itself issues no HTTP request. -/
def adminCheckAccess (env : JsEnv) (s : ClientState) (ctxAuth : Bool) :
    AdminDecision × List Effect :=
  if ctxAuth = false then (.toLogin, [.navigate "/login"])
  else if isUserAdmin env s = false then
    (.denied, [.navigate "/", .toast "Access denied" "You don't have permission to access this page"])
  else (.granted, [])

/-- Helper: is an `Except` result an error? -/
def isErr {α : Type} : Except String α → Bool
  | .error _ => true
  | .ok _ => false

theorem lsGet_cons (p : String × String) (st : Storage) (k : String) :
    lsGet (p :: st) k = if p.1 = k then some p.2 else lsGet st k := by
  by_cases h : p.1 = k <;> simp [lsGet, List.find?_cons, h]

theorem lsGet_lsRemove (st : Storage) (k k' : String) :
    lsGet (lsRemove st k) k' = if k' = k then none else lsGet st k' := by
  induction st with
  | nil => by_cases hk : k' = k <;> simp [lsGet, lsRemove, hk]
  | cons p st ih =>
    unfold lsRemove at ih ⊢
    rw [List.filter_cons]
    by_cases hp : p.1 = k
    · rw [if_neg (by simp [hp]), ih, lsGet_cons]
      by_cases hk : k' = k
      · simp [hk]
      · have hpk : p.1 ≠ k' := by rw [hp]; exact fun h => hk h.symm
        simp [hk, hpk]
    · rw [if_pos (by simp [hp]), lsGet_cons, lsGet_cons, ih]
      by_cases hq : p.1 = k'
      · have hne : ¬ k' = k := by rw [← hq]; exact hp
        simp [hq, hne]
      · simp [hq]

theorem lsGet_lsSet (st : Storage) (k k' v : String) :
    lsGet (lsSet st k v) k' = if k = k' then some v else lsGet st k' := by
  unfold lsSet
  rw [lsGet_cons]
  by_cases hk : k = k'
  · simp [hk]
  · have hk' : ¬ k' = k := fun h => hk h.symm
    have := lsGet_lsRemove st k k'
    rw [if_neg hk'] at this
    simpa [hk, lsRemove] using this

theorem lsGet_lsSet_self (st : Storage) (k v : String) :
    lsGet (lsSet st k v) k = some v := by
  simp [lsGet_lsSet]

theorem lsGet_lsRemove_self (st : Storage) (k : String) :
    lsGet (lsRemove st k) k = none := by
  simp [lsGet_lsRemove]

/-- A concrete browser environment for the closed evaluations below: the blob
`"TOK"` parses to a token whose payload is expired and non-admin, the blob
`"ATOK"` parses to a token whose payload is unexpired and admin, and every
other blob or payload fails to decode. -/
def envX : JsEnv :=
  { stringifyTokens := fun t => "ser:" ++ t.access_token
    parseTokens := fun v =>
      if v = "TOK" then some ⟨"acc", "Bearer"⟩
      else if v = "ATOK" then some ⟨"adm", "Bearer"⟩
      else none
    decodePayload := fun a =>
      if a = "acc" then some ⟨some 0, some false, some 7⟩
      else if a = "adm" then some ⟨some 2000000, some true, some 3⟩
      else none
    now := 1000000 }

/-- Concrete state holding the expired token, loaded in memory and stored. -/
def sExpired : ClientState :=
  { storage := [("auth_tokens", "TOK")], authTokens := some ⟨"acc", "Bearer"⟩ }

/-- Concrete state holding the valid admin token. -/
def sAdmin : ClientState :=
  { storage := [("auth_tokens", "ATOK")], authTokens := some ⟨"adm", "Bearer"⟩ }

/-- Concrete logged-out state. -/
def sEmpty : ClientState := { storage := [], authTokens := none }

/-- C6: for every request failure that is not a 401, `handleApiError`
surfaces one notification whose message is extracted in the fixed priority
order `error.response.data.detail`, then `error.detail`, then
`error.message`, then the generic default (a present-but-empty string counts
as absent, by JavaScript falsiness), and throws an `Error` carrying exactly
that message. -/
theorem C6_non401_message_priority (env : JsEnv) (s : ClientState) (e : ApiError)
    (h : is401 e = false) :
    (handleApiError env s e).effects = [.toast "Erro" (extractErrorMessage e)] ∧
    (handleApiError env s e).thrown = extractErrorMessage e ∧
    (handleApiError env s e).state = s ∧
    (truthy e.responseDetail = true → extractErrorMessage e = e.responseDetail.getD "") ∧
    (truthy e.responseDetail = false → truthy e.detail = true →
      extractErrorMessage e = e.detail.getD "") ∧
    (truthy e.responseDetail = false → truthy e.detail = false → truthy e.message = true →
      extractErrorMessage e = e.message.getD "") ∧
    (truthy e.responseDetail = false → truthy e.detail = false → truthy e.message = false →
      extractErrorMessage e = "Ocorreu um erro na requisição") := by
  refine ⟨by simp [handleApiError, h], by simp [handleApiError, h], by simp [handleApiError, h],
    ?_, ?_, ?_, ?_⟩ <;> intros <;> simp [extractErrorMessage, *]

/-- Witness for C6 at a concrete non-401 error carrying only a `detail`. -/
theorem C6_witness :
    (handleApiError envX sEmpty ⟨some 500, none, none, some "boom", some "msg"⟩).effects =
      [.toast "Erro" (extractErrorMessage ⟨some 500, none, none, some "boom", some "msg"⟩)] ∧
    (handleApiError envX sEmpty ⟨some 500, none, none, some "boom", some "msg"⟩).thrown =
      extractErrorMessage ⟨some 500, none, none, some "boom", some "msg"⟩ ∧
    extractErrorMessage ⟨some 500, none, none, some "boom", some "msg"⟩ = "boom" := by
  have h := C6_non401_message_priority envX sEmpty
    ⟨some 500, none, none, some "boom", some "msg"⟩ (by decide)
  exact ⟨h.1, h.2.1, by
    have := h.2.2.2.2.1 (by decide) (by decide)
    simpa using this⟩

/-- C9: the deposit request body forwards the amount unchanged and sends the
mobile number with its first four characters removed exactly when it starts
with `"+265"` (so the original number is `"+265"` followed by what is sent),
and unchanged otherwise. -/
theorem C9_deposit_mobile_normalization (env : JsEnv) (s : ClientState)
    (amount : Rat) (mobile : String) (resp : Except ApiError Unit) :
    (depositCall env s amount mobile resp).effects.head? =
      some (.depositRequest (depositBodyOf amount mobile)) ∧
    (depositBodyOf amount mobile).amount = amount ∧
    (jsStartsWith mobile "+265" = true →
      (depositBodyOf amount mobile).mobile = jsDrop mobile 4 ∧
      mobile = "+265" ++ (depositBodyOf amount mobile).mobile) ∧
    (jsStartsWith mobile "+265" = false →
      (depositBodyOf amount mobile).mobile = mobile) := by
  refine ⟨?_, rfl, ?_, ?_⟩
  · cases resp <;> simp [depositCall]
  · intro h
    refine ⟨by simp [depositBodyOf, h], ?_⟩
    simp only [depositBodyOf, h, if_true]
    unfold jsStartsWith at h
    rw [ List.isPrefixOf_iff_prefix] at h
    obtain ⟨t, ht⟩ := h
    have hlen : ("+265".data).length = 4 := by decide
    have hdrop : mobile.data.drop 4 = t := by
      rw [← ht, ← hlen]
      exact List.drop_left _ _
    unfold jsDrop
    rw [hdrop]
    apply String.ext
    rw [← ht]
    rfl
  · intro h
    simp [depositBodyOf, h]

/-- Witness for C9 at a `+265`-prefixed and an unprefixed number. -/
theorem C9_witness :
    (depositBodyOf 10 "+265888123456").mobile = jsDrop "+265888123456" 4 ∧
    "+265888123456" = "+265" ++ (depositBodyOf 10 "+265888123456").mobile ∧
    (depositBodyOf 10 "0999888777").mobile = "0999888777" := by
  have h1 := (C9_deposit_mobile_normalization envX sEmpty 10 "+265888123456" (.ok ())).2.2.1
    (by decide)
  have h2 := (C9_deposit_mobile_normalization envX sEmpty 10 "0999888777" (.ok ())).2.2.2
    (by decide)
  exact ⟨h1.1, h1.2, h2⟩

/-- C8: the course-form price validator accepts exactly when `Number(val)` is
not `NaN` and strictly positive; the duration validator is the price check
plus `Number.isInteger`; the deposit amount validator accepts exactly the
strings whose numeric value is strictly positive (`NaN` is never positive);
and a rejected price or duration blocks the submission pipeline with no
client code running. -/
theorem C8_validators (toNumber : String → JsNum) (v : String) (env : JsEnv)
    (s : ClientState) (fs : CourseFormState) (title description price duration : String)
    (resp : CreateResponse) :
    (priceValid toNumber v = true ↔
      ((toNumber v).isNaN = false ∧ (toNumber v).gt0 = true)) ∧
    (durationValid toNumber v = (priceValid toNumber v && (toNumber v).isInteger)) ∧
    (depositAmountValid toNumber v = true ↔ (toNumber v).gt0 = true) ∧
    (priceValid toNumber price = false →
      submitCourseForm env s fs toNumber title description price duration resp =
        { state := s, effects := [], calledCreate := false }) ∧
    (durationValid toNumber duration = false →
      submitCourseForm env s fs toNumber title description price duration resp =
        { state := s, effects := [], calledCreate := false }) := by
  refine ⟨by simp [priceValid], by rfl, ?_, ?_, ?_⟩
  · cases h : toNumber v <;>
      simp [depositAmountValid, JsNum.gt0, JsNum.isNaN, h]
  · intro h
    simp [submitCourseForm, courseFormValidates, h]
  · intro h
    simp [submitCourseForm, courseFormValidates, h]

/-- The `Number()` coercion on the concrete strings used in the C8 witness. -/
def toNumX : String → JsNum := fun v =>
  if v = "7" then .num 7
  else if v = "2" then .num 2
  else if v = "0" then .num 0
  else if v = "-2" then .num (-2)
  else .nan

/-- Witness for C8: a negative price is rejected and blocks the submission,
and a positive deposit amount is accepted. -/
theorem C8_witness :
    priceValid toNumX "-2" = false ∧
    submitCourseForm envX sAdmin ⟨false, false, none, none⟩ toNumX
        "ttt" "dddddddddd" "-2" "7" ⟨200, none⟩ =
      { state := sAdmin, effects := [], calledCreate := false } ∧
    (depositAmountValid toNumX "2" = true ↔ (toNumX "2").gt0 = true) ∧
    depositAmountValid toNumX "2" = true := by
  refine ⟨by decide, ?_, ?_, by decide⟩
  · exact (C8_validators toNumX "x" envX sAdmin ⟨false, false, none, none⟩
      "ttt" "dddddddddd" "-2" "7" ⟨200, none⟩).2.2.2.1 (by decide)
  · exact (C8_validators toNumX "2" envX sAdmin ⟨false, false, none, none⟩
      "t" "d" "p" "q" ⟨200, none⟩).2.2.1

/-- C4: under the real behaviour of `atob`/`JSON.parse` on an empty token
(decoding `""` always throws, hence the hypothesis), `isUserAdmin()` is true
exactly when the cached in-memory token exists and its decoded payload's
`is_admin` is strictly `true`; it is a pure function of the cached token; the
navbar shows the Admin entry exactly when it is true; and the Admin page
grants access exactly when the context flag and this token claim hold, the
gating itself issuing no HTTP request. -/
theorem C4_admin_claim_from_token (env : JsEnv) (s : ClientState) (ctx : Bool)
    (hempty : env.decodePayload "" = none) :
    (isUserAdmin env s = true ↔
      ∃ tk p, s.authTokens = some tk ∧ env.decodePayload tk.access_token = some p ∧
        p.is_admin = some true) ∧
    (∀ s' : ClientState, s.authTokens = s'.authTokens → isUserAdmin env s = isUserAdmin env s') ∧
    (("Admin", "/admin") ∈ navLinks ctx (isUserAdmin env s) ↔ isUserAdmin env s = true) ∧
    ((adminCheckAccess env s ctx).1 = .granted ↔ (ctx = true ∧ isUserAdmin env s = true)) ∧
    (∀ e ∈ (adminCheckAccess env s ctx).2, e.isRequest = false) := by
  refine ⟨?_, ?_, ?_, ?_, ?_⟩
  · unfold isUserAdmin
    cases hs : s.authTokens with
    | none => simp
    | some tk =>
      by_cases ha : tk.access_token = ""
      · simp only [ha, if_true]
        constructor
        · intro h
          exact absurd h (by simp)
        · rintro ⟨tk', p, htk, hdec, _⟩
          cases htk
          rw [ha, hempty] at hdec
          cases hdec
      · simp only [ha, if_false]
        cases hd : env.decodePayload tk.access_token with
        | none => simp [hd]
        | some p =>
          simp only [decide_eq_true_eq]
          constructor
          · intro h
            exact ⟨tk, p, rfl, hd, h⟩
          · rintro ⟨tk', p', htk, hdec, hadm⟩
            cases htk
            rw [hd] at hdec
            cases hdec
            exact hadm
  · intro s' h
    unfold isUserAdmin
    rw [h]
  · cases hA : isUserAdmin env s <;> cases ctx <;> simp [navLinks]
  · unfold adminCheckAccess
    cases ctx with
    | false => simp
    | true =>
      cases hA : isUserAdmin env s <;> simp [hA]
  · unfold adminCheckAccess
    cases ctx with
    | false => simp [Effect.isRequest]
    | true =>
      cases hA : isUserAdmin env s <;> simp [hA, Effect.isRequest]

/-- Witness for C4 at the concrete admin state: the token claim makes the
admin UI visible and grants page access. -/
theorem C4_witness :
    (isUserAdmin envX sAdmin = true ↔
      ∃ tk p, sAdmin.authTokens = some tk ∧ envX.decodePayload tk.access_token = some p ∧
        p.is_admin = some true) ∧
    (("Admin", "/admin") ∈ navLinks true (isUserAdmin envX sAdmin) ↔
      isUserAdmin envX sAdmin = true) ∧
    ((adminCheckAccess envX sAdmin true).1 = .granted ↔
      (true = true ∧ isUserAdmin envX sAdmin = true)) := by
  have h := C4_admin_claim_from_token envX sAdmin true (by decide)
  exact ⟨h.1, h.2.2.1, h.2.2.2.1⟩

theorem load_storage_frame (env : JsEnv) (s : ClientState) (k : String)
    (hk : ¬ k = "auth_tokens") :
    lsGet (loadTokensFromStorage env s).2.storage k = lsGet s.storage k := by
  unfold loadTokensFromStorage
  cases h : lsGet s.storage "auth_tokens" with
  | none => rfl
  | some v =>
    by_cases hv : v = "" ∨ v = "undefined" ∨ v = "null"
    · simp [hv]
    · cases hp : env.parseTokens v <;> simp [hv, hp, lsGet_lsRemove, hk]

theorem setAuthTokens_storage_frame (env : JsEnv) (s : ClientState) (t : Option AuthTokens)
    (k : String) (hk : ¬ k = "auth_tokens") :
    lsGet (setAuthTokens env s t).storage k = lsGet s.storage k := by
  have hk2 : ¬ "auth_tokens" = k := fun h => hk h.symm
  cases t <;> simp [setAuthTokens, lsGet_lsRemove, lsGet_lsSet, hk, hk2]

theorem getAuthHeaders_storage_frame (env : JsEnv) (s : ClientState) (k : String)
    (hk : ¬ k = "auth_tokens") :
    lsGet (getAuthHeaders env s).2.storage k = lsGet s.storage k := by
  unfold getAuthHeaders
  have hl := load_storage_frame env s k hk
  cases h : (loadTokensFromStorage env s).2.authTokens with
  | none => simp [h, lsGet_lsRemove, hk, hl]
  | some tk =>
    by_cases ha : tk.access_token = "" <;> simp [h, ha, lsGet_lsRemove, hk, hl]

theorem isAuthenticated_storage_frame (env : JsEnv) (s : ClientState) (k : String)
    (hk : ¬ k = "auth_tokens") :
    lsGet (isAuthenticated env s).2.storage k = lsGet s.storage k := by
  unfold isAuthenticated
  have hl := load_storage_frame env s k hk
  cases hr : (loadTokensFromStorage env s).1 with
  | false => simpa [hr] using hl
  | true =>
    cases h : (loadTokensFromStorage env s).2.authTokens with
    | none => simpa [hr, h] using hl
    | some tk =>
      by_cases ha : tk.access_token = ""
      · simpa [hr, h, ha] using hl
      · cases hd : env.decodePayload tk.access_token with
        | none => simp [hr, h, ha, hd, lsGet_lsRemove, hk, hl]
        | some p =>
          cases he : p.exp with
          | none => simpa [hr, h, ha, hd, he] using hl
          | some e =>
            by_cases hx : env.now ≥ e * 1000 <;>
              simp [hr, h, ha, hd, he, hx, lsGet_lsRemove, hk, hl]

theorem handleApiError_storage_frame (env : JsEnv) (s : ClientState) (e : ApiError)
    (k : String) (hk : ¬ k = "auth_tokens") :
    lsGet (handleApiError env s e).state.storage k = lsGet s.storage k := by
  unfold handleApiError
  by_cases h4 : is401 e = true <;>
    simp [h4, setAuthTokens_storage_frame env s none k hk]

theorem standardApiCall_storage_frame (env : JsEnv) (s : ClientState) (ep : String)
    (resp : Except ApiError Unit) (k : String) (hk : ¬ k = "auth_tokens") :
    lsGet (standardApiCall env s ep resp).state.storage k = lsGet s.storage k := by
  unfold standardApiCall
  cases resp with
  | ok v => simpa using getAuthHeaders_storage_frame env s k hk
  | error e =>
    simp only
    rw [handleApiError_storage_frame env _ e k hk]
    exact getAuthHeaders_storage_frame env s k hk

theorem depositCall_storage_frame (env : JsEnv) (s : ClientState) (a : Rat) (m : String)
    (resp : Except ApiError Unit) (k : String) (hk : ¬ k = "auth_tokens") :
    lsGet (depositCall env s a m resp).state.storage k = lsGet s.storage k := by
  unfold depositCall
  cases resp with
  | ok v => simpa using getAuthHeaders_storage_frame env s k hk
  | error e =>
    simp only
    rw [handleApiError_storage_frame env _ e k hk]
    exact getAuthHeaders_storage_frame env s k hk

theorem login_storage_frame (env : JsEnv) (s : ClientState)
    (resp : Except ApiError AuthTokens) (k : String) (hk : ¬ k = "auth_tokens") :
    lsGet (login env s resp).state.storage k = lsGet s.storage k := by
  have hk2 : ¬ "auth_tokens" = k := fun h => hk h.symm
  unfold login
  cases resp with
  | ok data => simp [lsGet_lsSet, lsGet_lsRemove, hk, hk2]
  | error e => simpa using handleApiError_storage_frame env s e k hk

theorem createCourse_storage_frame (env : JsEnv) (s : ClientState)
    (ti de : String) (pr du : JsNum) (ci cf : Option FileMeta) (resp : CreateResponse)
    (k : String) (hk : ¬ k = "auth_tokens") :
    lsGet (createCourse env s ti de pr du ci cf resp).state.storage k = lsGet s.storage k := by
  unfold createCourse
  have hl := load_storage_frame env s k hk
  by_cases hval : ti = "" ∨ de = "" ∨ pr.falsy = true ∨ du.falsy = true ∨ ci = none ∨ cf = none
  · simpa [hval] using hl
  · cases h : (loadTokensFromStorage env s).2.authTokens with
    | none => simpa [hval, h] using hl
    | some tk =>
      by_cases ha : tk.access_token = ""
      · simpa [hval, h, ha] using hl
      · by_cases hok : respOk resp.status = true
        · simpa [hval, h, ha, hok] using hl
        · by_cases h4 : resp.status = 401
          · have hro : respOk 401 = false := by rfl
            simp only [hval, if_false, h, ha, if_neg, hok, h4, if_pos, if_true, hro,
              Bool.false_eq_true]
            rw [setAuthTokens_storage_frame env _ none k hk]
            exact hl
          · simpa [hval, h, ha, hok, h4] using hl

theorem load_of_parse (env : JsEnv) (s : ClientState) (v : String) (tk : AuthTokens)
    (hv : lsGet s.storage "auth_tokens" = some v)
    (hs : ¬(v = "" ∨ v = "undefined" ∨ v = "null"))
    (hp : env.parseTokens v = some tk) :
    loadTokensFromStorage env s = (true, { s with authTokens := some tk }) := by
  unfold loadTokensFromStorage
  simp [hv, hs, hp]

theorem getAuthHeaders_of_parse (env : JsEnv) (s : ClientState) (v : String) (tk : AuthTokens)
    (hv : lsGet s.storage "auth_tokens" = some v)
    (hs : ¬(v = "" ∨ v = "undefined" ∨ v = "null"))
    (hp : env.parseTokens v = some tk) (ha : ¬ tk.access_token = "") :
    getAuthHeaders env s =
      (⟨some (tk.token_type ++ " " ++ tk.access_token), some "application/json"⟩,
        { storage := s.storage, authTokens := some tk }) := by
  unfold getAuthHeaders
  rw [load_of_parse env s v tk hv hs hp]
  simp [ha]

theorem isAuthenticated_of_parse (env : JsEnv) (s : ClientState) (v : String) (tk : AuthTokens)
    (hv : lsGet s.storage "auth_tokens" = some v)
    (hs : ¬(v = "" ∨ v = "undefined" ∨ v = "null"))
    (hp : env.parseTokens v = some tk) (ha : ¬ tk.access_token = "") :
    isAuthenticated env s =
      (match env.decodePayload tk.access_token with
       | none => (false, ⟨lsRemove s.storage "auth_tokens", none⟩)
       | some p =>
         match p.exp with
         | some e =>
           if env.now ≥ e * 1000 then (false, ⟨lsRemove s.storage "auth_tokens", none⟩)
           else (true, { storage := s.storage, authTokens := some tk })
         | none => (true, { storage := s.storage, authTokens := some tk })) := by
  unfold isAuthenticated
  rw [load_of_parse env s v tk hv hs hp]
  simp [ha]

/-- C7: the only persistent key any modelled client operation touches is
`"auth_tokens"`: `setAuthTokens` writes the JSON serialization there for a
non-null token and removes the key for null, every other modelled operation
leaves all other keys unchanged, and whenever the stored blob holds a
parseable token, `getAuthHeaders` and `isAuthenticated` re-read it before
use, so their results are independent of the in-memory cache. -/
theorem C7_single_persistent_key (env : JsEnv) (s : ClientState) (t : AuthTokens)
    (k : String) (hk : ¬ k = "auth_tokens") :
    lsGet (setAuthTokens env s (some t)).storage "auth_tokens" =
      some (env.stringifyTokens t) ∧
    lsGet (setAuthTokens env s none).storage "auth_tokens" = none ∧
    lsGet (setAuthTokens env s (some t)).storage k = lsGet s.storage k ∧
    lsGet (setAuthTokens env s none).storage k = lsGet s.storage k ∧
    lsGet (loadTokensFromStorage env s).2.storage k = lsGet s.storage k ∧
    lsGet (getAuthHeaders env s).2.storage k = lsGet s.storage k ∧
    lsGet (isAuthenticated env s).2.storage k = lsGet s.storage k ∧
    (∀ e : ApiError, lsGet (handleApiError env s e).state.storage k = lsGet s.storage k) ∧
    (∀ resp : Except ApiError AuthTokens,
      lsGet (login env s resp).state.storage k = lsGet s.storage k) ∧
    (∀ (ep : String) (resp : Except ApiError Unit),
      lsGet (standardApiCall env s ep resp).state.storage k = lsGet s.storage k) ∧
    (∀ (a : Rat) (m : String) (resp : Except ApiError Unit),
      lsGet (depositCall env s a m resp).state.storage k = lsGet s.storage k) ∧
    (∀ (ti de : String) (pr du : JsNum) (ci cf : Option FileMeta) (resp : CreateResponse),
      lsGet (createCourse env s ti de pr du ci cf resp).state.storage k = lsGet s.storage k) ∧
    (∀ (v : String) (tk : AuthTokens), lsGet s.storage "auth_tokens" = some v →
      ¬(v = "" ∨ v = "undefined" ∨ v = "null") → env.parseTokens v = some tk →
      ¬ tk.access_token = "" →
      (getAuthHeaders env s).1 =
        ⟨some (tk.token_type ++ " " ++ tk.access_token), some "application/json"⟩ ∧
      (∀ s' : ClientState, s'.storage = s.storage →
        (getAuthHeaders env s').1 = (getAuthHeaders env s).1 ∧
        (isAuthenticated env s').1 = (isAuthenticated env s).1)) := by
  refine ⟨by simp [setAuthTokens, lsGet_lsSet_self], by simp [setAuthTokens, lsGet_lsRemove_self],
    setAuthTokens_storage_frame env s (some t) k hk,
    setAuthTokens_storage_frame env s none k hk,
    load_storage_frame env s k hk,
    getAuthHeaders_storage_frame env s k hk,
    isAuthenticated_storage_frame env s k hk,
    fun e => handleApiError_storage_frame env s e k hk,
    fun resp => login_storage_frame env s resp k hk,
    fun ep resp => standardApiCall_storage_frame env s ep resp k hk,
    fun a m resp => depositCall_storage_frame env s a m resp k hk,
    fun ti de pr du ci cf resp => createCourse_storage_frame env s ti de pr du ci cf resp k hk,
    ?_⟩
  intro v tk hv hs hp ha
  refine ⟨by rw [getAuthHeaders_of_parse env s v tk hv hs hp ha], ?_⟩
  intro s' hst
  have hv' : lsGet s'.storage "auth_tokens" = some v := by rw [hst]; exact hv
  constructor
  · rw [getAuthHeaders_of_parse env s v tk hv hs hp ha,
      getAuthHeaders_of_parse env s' v tk hv' hs hp ha]
  · rw [isAuthenticated_of_parse env s v tk hv hs hp ha,
      isAuthenticated_of_parse env s' v tk hv' hs hp ha, hst]

/-- Witness for C7 at the concrete admin state and the unrelated key
`"other"`. -/
theorem C7_witness :
    lsGet (setAuthTokens envX sAdmin (some ⟨"adm", "Bearer"⟩)).storage "auth_tokens" =
      some (envX.stringifyTokens ⟨"adm", "Bearer"⟩) ∧
    lsGet (setAuthTokens envX sAdmin none).storage "auth_tokens" = none ∧
    lsGet (setAuthTokens envX sAdmin none).storage "other" = lsGet sAdmin.storage "other" ∧
    (getAuthHeaders envX sAdmin).1 = ⟨some "Bearer adm", some "application/json"⟩ := by
  have h := C7_single_persistent_key envX sAdmin ⟨"adm", "Bearer"⟩ "other" (by decide)
  refine ⟨h.1, h.2.1, h.2.2.2.1, ?_⟩
  have hq := (h.2.2.2.2.2.2.2.2.2.2.2.2 "ATOK" ⟨"adm", "Bearer"⟩ (by decide) (by decide)
    (by decide) (by decide)).1
  simpa using hq

theorem isAuthenticated_of_missing (env : JsEnv) (s : ClientState)
    (hv : lsGet s.storage "auth_tokens" = none) :
    isAuthenticated env s = (false, s) := by
  unfold isAuthenticated loadTokensFromStorage
  simp [hv]

theorem isAuthenticated_of_sentinel (env : JsEnv) (s : ClientState) (v : String)
    (hv : lsGet s.storage "auth_tokens" = some v)
    (hs : v = "" ∨ v = "undefined" ∨ v = "null") :
    isAuthenticated env s = (false, s) := by
  unfold isAuthenticated loadTokensFromStorage
  simp [hv, hs]

theorem isAuthenticated_of_noparse (env : JsEnv) (s : ClientState) (v : String)
    (hv : lsGet s.storage "auth_tokens" = some v)
    (hs : ¬(v = "" ∨ v = "undefined" ∨ v = "null"))
    (hp : env.parseTokens v = none) :
    isAuthenticated env s =
      (false, { s with storage := lsRemove s.storage "auth_tokens" }) := by
  unfold isAuthenticated loadTokensFromStorage
  simp [hv, hs, hp]

theorem isAuthenticated_of_empty (env : JsEnv) (s : ClientState) (v : String)
    (tk : AuthTokens) (hv : lsGet s.storage "auth_tokens" = some v)
    (hs : ¬(v = "" ∨ v = "undefined" ∨ v = "null"))
    (hp : env.parseTokens v = some tk) (ha : tk.access_token = "") :
    isAuthenticated env s = (false, { s with authTokens := some tk }) := by
  unfold isAuthenticated
  rw [load_of_parse env s v tk hv hs hp]
  simp [ha]

/-- C2 (amended): `isAuthenticated()` returns true exactly when the stored
blob is present, non-sentinel, parses to a token with a nonempty access
token, and the decoded payload is not expired (a payload with `exp` requires
`exp * 1000 > Date.now()`; a payload without `exp` never expires); an expired
or payload-undecodable token clears both the in-memory cache and the storage
entry; an unparseable blob clears only the storage entry, leaving the
in-memory cache; a missing or sentinel entry leaves the state untouched; and
on a false answer the auth context resets the user silently, with no notice
and no forced logout of its own. -/
theorem C2_amended_session_check {α : Type} (env : JsEnv) (s : ClientState)
    (resp : Except ApiError (Option α)) :
    ((isAuthenticated env s).1 = true ↔
      ∃ v tk, lsGet s.storage "auth_tokens" = some v ∧
        ¬(v = "" ∨ v = "undefined" ∨ v = "null") ∧
        env.parseTokens v = some tk ∧ ¬ tk.access_token = "" ∧
        ∃ p, env.decodePayload tk.access_token = some p ∧
          ∀ e, p.exp = some e → env.now < e * 1000) ∧
    (∀ (v : String) (tk : AuthTokens), lsGet s.storage "auth_tokens" = some v →
      ¬(v = "" ∨ v = "undefined" ∨ v = "null") →
      env.parseTokens v = some tk → ¬ tk.access_token = "" →
      (env.decodePayload tk.access_token = none ∨
        (∃ p e, env.decodePayload tk.access_token = some p ∧ p.exp = some e ∧
          env.now ≥ e * 1000)) →
      (isAuthenticated env s).1 = false ∧
      (isAuthenticated env s).2.authTokens = none ∧
      lsGet (isAuthenticated env s).2.storage "auth_tokens" = none) ∧
    (∀ v : String, lsGet s.storage "auth_tokens" = some v →
      ¬(v = "" ∨ v = "undefined" ∨ v = "null") → env.parseTokens v = none →
      (isAuthenticated env s).1 = false ∧
      lsGet (isAuthenticated env s).2.storage "auth_tokens" = none ∧
      (isAuthenticated env s).2.authTokens = s.authTokens) ∧
    ((lsGet s.storage "auth_tokens" = none ∨
        ∃ v, lsGet s.storage "auth_tokens" = some v ∧
          (v = "" ∨ v = "undefined" ∨ v = "null")) →
      (isAuthenticated env s).1 = false ∧ (isAuthenticated env s).2 = s) ∧
    ((isAuthenticated env s).1 = false →
      (refreshUser (α := α) env s resp).user = none ∧
      (refreshUser (α := α) env s resp).effects = []) := by
  refine ⟨⟨?_, ?_⟩, ?_, ?_, ?_, ?_⟩
  · intro htrue
    cases hv : lsGet s.storage "auth_tokens" with
    | none => rw [isAuthenticated_of_missing env s hv] at htrue; cases htrue
    | some v =>
      by_cases hs : v = "" ∨ v = "undefined" ∨ v = "null"
      · rw [isAuthenticated_of_sentinel env s v hv hs] at htrue; cases htrue
      · cases hp : env.parseTokens v with
        | none => rw [isAuthenticated_of_noparse env s v hv hs hp] at htrue; cases htrue
        | some tk =>
          by_cases ha : tk.access_token = ""
          · rw [isAuthenticated_of_empty env s v tk hv hs hp ha] at htrue; cases htrue
          · rw [isAuthenticated_of_parse env s v tk hv hs hp ha] at htrue
            refine ⟨v, tk, rfl, hs, hp, ha, ?_⟩
            cases hd : env.decodePayload tk.access_token with
            | none => simp [hd] at htrue
            | some p =>
              simp only [hd] at htrue
              refine ⟨p, rfl, ?_⟩
              intro e he
              simp only [he] at htrue
              by_cases hx : env.now ≥ e * 1000
              · rw [if_pos hx] at htrue; cases htrue
              · omega
  · rintro ⟨v, tk, hv, hs, hp, ha, p, hd, hexp⟩
    rw [isAuthenticated_of_parse env s v tk hv hs hp ha]
    simp only [hd]
    cases he : p.exp with
    | none => rfl
    | some e =>
      have := hexp e he
      simp only [he]
      rw [if_neg (by omega)]
  · intro v tk hv hs hp ha hbad
    rw [isAuthenticated_of_parse env s v tk hv hs hp ha]
    rcases hbad with hd | ⟨p, e, hd, he, hx⟩
    · simp [hd, lsGet_lsRemove_self]
    · simp [hd, he, hx, lsGet_lsRemove_self]
  · intro v hv hs hp
    rw [isAuthenticated_of_noparse env s v hv hs hp]
    simp [lsGet_lsRemove_self]
  · rintro (hv | ⟨v, hv, hs⟩)
    · rw [isAuthenticated_of_missing env s hv]; exact ⟨rfl, rfl⟩
    · rw [isAuthenticated_of_sentinel env s v hv hs]; exact ⟨rfl, rfl⟩
  · intro hfalse
    unfold refreshUser
    simp [hfalse]

/-- Concrete state with an undecodable blob in storage and a stale token in
memory. -/
def sStale : ClientState :=
  { storage := [("auth_tokens", "undefined")], authTokens := some ⟨"x", "Bearer"⟩ }

/-- C2 counterexample: with the undecodable cached value `"undefined"` and a
stale in-memory token, `isAuthenticated()` returns false but neither the
in-memory token nor the storage entry is cleared, and the auth context reacts
with no notice and no logout — refuting the claim that a missing or
undecodable token yields the cleared-cache, forced-logout outcome. -/
theorem C2_counterexample :
    envX.parseTokens "undefined" = none ∧
    (isAuthenticated envX sStale).1 = false ∧
    (isAuthenticated envX sStale).2.authTokens = some ⟨"x", "Bearer"⟩ ∧
    lsGet (isAuthenticated envX sStale).2.storage "auth_tokens" = some "undefined" ∧
    (refreshUser (α := Unit) envX sStale (.ok (some ()))).effects = [] ∧
    (refreshUser (α := Unit) envX sStale (.ok (some ()))).state.authTokens =
      some ⟨"x", "Bearer"⟩ := by
  refine ⟨by decide, by decide, by decide, by decide, by decide, by decide⟩

/-- Witness for C2 (amended) at the concrete expired-token state: the expired
case clears both caches. -/
theorem C2_witness :
    (isAuthenticated envX sExpired).1 = false ∧
    (isAuthenticated envX sExpired).2.authTokens = none ∧
    lsGet (isAuthenticated envX sExpired).2.storage "auth_tokens" = none := by
  exact (C2_amended_session_check (α := Unit) envX sExpired (.ok none)).2.1 "TOK"
    ⟨"acc", "Bearer"⟩ (by decide) (by decide) (by decide) (by decide)
    (Or.inr ⟨⟨some 0, some false, some 7⟩, 0, by decide, by decide, by decide⟩)

theorem requestCount_cons (e : Effect) (l : List Effect) :
    requestCount (e :: l) = (if e.isRequest then 1 else 0) + requestCount l := by
  by_cases h : e.isRequest <;>
    simp [requestCount, List.filter_cons, h, Nat.add_comm]

theorem requestCount_append (l₁ l₂ : List Effect) :
    requestCount (l₁ ++ l₂) = requestCount l₁ + requestCount l₂ := by
  simp [requestCount, List.filter_append]

theorem handleApiError_no_request (env : JsEnv) (s : ClientState) (e : ApiError) :
    requestCount (handleApiError env s e).effects = 0 := by
  unfold handleApiError
  by_cases h : is401 e = true <;> simp [h, requestCount, Effect.isRequest]

theorem standardApiCall_one_request (env : JsEnv) (s : ClientState) (ep : String)
    (resp : Except ApiError Unit) :
    requestCount (standardApiCall env s ep resp).effects = 1 := by
  unfold standardApiCall
  cases resp with
  | ok v => simp [requestCount, Effect.isRequest]
  | error e =>
    simp only
    rw [requestCount_cons]
    rw [handleApiError_no_request env _ e]
    simp [Effect.isRequest]

theorem depositCall_one_request (env : JsEnv) (s : ClientState) (a : Rat) (m : String)
    (resp : Except ApiError Unit) :
    requestCount (depositCall env s a m resp).effects = 1 := by
  unfold depositCall
  cases resp with
  | ok v => simp [requestCount, Effect.isRequest]
  | error e =>
    simp only
    rw [requestCount_cons]
    rw [handleApiError_no_request env _ e]
    simp [Effect.isRequest]

/-- Spec-side predicate for C1: the stored token is present, decodable, and
expired at the current wall clock. -/
def specStoredTokenExpired (env : JsEnv) (s : ClientState) : Bool :=
  match lsGet s.storage "auth_tokens" with
  | none => false
  | some v =>
    match env.parseTokens v with
    | none => false
    | some tk =>
      match env.decodePayload tk.access_token with
      | none => false
      | some p =>
        match p.exp with
        | none => false
        | some e => env.now ≥ e * 1000

/-- C1 counterexample: at the concrete state holding an expired stored token,
the context flag (mere presence) is true, so the like handler issues the HTTP
request and shows no restricted-action notice — refuting the claim that every
invocation with an expired token is blocked with a notice.  The deposit
handler even issues its request with no token at all. -/
theorem C1_counterexample :
    specStoredTokenExpired envX sExpired = true ∧
    checkTokenExists sExpired.storage = true ∧
    (handleLike envX sExpired (checkTokenExists sExpired.storage) 1 (.ok ())).effects =
      [.request "/courses/1/like"] ∧
    (handlePurchase envX sExpired (checkTokenExists sExpired.storage) 1 (.ok ())).effects =
      [.request "/courses/1/purchase",
       .toast "Course purchased!" "You can now download this course"] ∧
    checkTokenExists sEmpty.storage = false ∧
    (onDepositSubmit envX sEmpty 10 "0888" (.ok ())).effects =
      [.depositRequest (depositBodyOf 10 "0888"),
       .toast "Deposit Initiated" "The amount has been added to your wallet."] := by
  refine ⟨by decide, by decide, by decide, by decide, by decide, by decide⟩

/-- C1 (amended): the like/purchase/download handlers gate only on presence
of a stored token entry — absence yields exactly the restricted-action notice
and no request, presence always issues the request, expired or not; course
creation gates on the expiry-checked `isAuthenticated()` with a
session-expired notice; the deposit and profile-picture handlers perform no
token check of their own and always issue their request. -/
theorem C1_amended_mutating_gates (env : JsEnv) (s : ClientState) (cid : Nat)
    (resp : Except ApiError Unit) (fs : CourseFormState) (toNumber : String → JsNum)
    (ti de pr du : String) (cresp : CreateResponse) (a : Rat) (m : String)
    (pic : FileMeta) :
    (checkTokenExists s.storage = false →
      handleLike env s (checkTokenExists s.storage) cid resp =
        { state := s,
          effects := [.toast "Restricted Action" "Please login to like courses"] } ∧
      handlePurchase env s (checkTokenExists s.storage) cid resp =
        { state := s,
          effects := [.toast "Restricted Action" "Please login to purchase courses"] } ∧
      handleDownload env s (checkTokenExists s.storage) cid resp =
        { state := s,
          effects := [.toast "Restricted Action" "Please login to download courses"] }) ∧
    (checkTokenExists s.storage = true →
      requestCount (handleLike env s (checkTokenExists s.storage) cid resp).effects = 1 ∧
      requestCount (handlePurchase env s (checkTokenExists s.storage) cid resp).effects = 1 ∧
      requestCount (handleDownload env s (checkTokenExists s.storage) cid resp).effects = 1) ∧
    (fs.isLoading = false → fs.submitted = false → (isAuthenticated env s).1 = false →
      (onSubmit env s fs toNumber ti de pr du cresp).calledCreate = false ∧
      (onSubmit env s fs toNumber ti de pr du cresp).effects =
        [.toast "Sessão expirada" "Sua sessão expirou. Por favor, faça login novamente."]) ∧
    requestCount (onDepositSubmit env s a m resp).effects = 1 ∧
    requestCount (handleProfilePictureUpload env s (some pic) resp).effects = 1 := by
  refine ⟨?_, ?_, ?_, ?_, ?_⟩
  · intro h
    refine ⟨?_, ?_, ?_⟩ <;> simp [handleLike, handlePurchase, handleDownload, h]
  · intro h
    refine ⟨?_, ?_, ?_⟩
    · unfold handleLike toggleCourseLike
      rw [h]
      simp only [Bool.true_eq_false, if_false]
      exact standardApiCall_one_request env s _ resp
    · unfold handlePurchase purchaseCourse
      rw [h]
      simp only [Bool.true_eq_false, if_false]
      cases hres : (standardApiCall env s ("/courses/" ++ toString cid ++ "/purchase") resp).result
      · simp [hres, standardApiCall_one_request env s _ resp]
      · simp [hres, requestCount_append, requestCount, Effect.isRequest]
        have := standardApiCall_one_request env s ("/courses/" ++ toString cid ++ "/purchase") resp
        simpa [requestCount] using this
    · unfold handleDownload downloadCourse
      rw [h]
      simp only [Bool.true_eq_false, if_false]
      cases hres : (standardApiCall env s ("/courses/" ++ toString cid ++ "/download") resp).result
      · simp [hres, requestCount_append, requestCount, Effect.isRequest]
        have := standardApiCall_one_request env s ("/courses/" ++ toString cid ++ "/download") resp
        simpa [requestCount] using this
      · simp [hres, standardApiCall_one_request env s _ resp]
  · intro h1 h2 h3
    unfold onSubmit
    simp [h1, h2, h3]
  · unfold onDepositSubmit
    cases hres : (depositCall env s a m resp).result
    · simp [hres, depositCall_one_request env s a m resp]
    · simp [hres, requestCount_append, requestCount, Effect.isRequest]
      have := depositCall_one_request env s a m resp
      simpa [requestCount] using this
  · unfold handleProfilePictureUpload updateProfilePicture
    cases hres : (standardApiCall env s "/users/profile/picture" resp).result
    · simp [hres, requestCount_append, requestCount, Effect.isRequest]
      have := standardApiCall_one_request env s "/users/profile/picture" resp
      simpa [requestCount] using this
    · simp [hres, requestCount_append, requestCount, Effect.isRequest]
      have := standardApiCall_one_request env s "/users/profile/picture" resp
      simpa [requestCount] using this

/-- Witness for C1 (amended): with no stored token the like handler shows the
restricted notice, with a present (expired) token it issues one request, and
an expired session blocks course creation with a notice. -/
theorem C1_witness :
    handleLike envX sEmpty (checkTokenExists sEmpty.storage) 1 (.ok ()) =
      { state := sEmpty,
        effects := [.toast "Restricted Action" "Please login to like courses"] } ∧
    requestCount (handleLike envX sExpired (checkTokenExists sExpired.storage) 1
      (.ok ())).effects = 1 ∧
    (onSubmit envX sExpired ⟨false, false, none, none⟩ toNumX "ttt" "dddddddddd" "7" "7"
      ⟨200, none⟩).calledCreate = false := by
  refine ⟨?_, ?_, ?_⟩
  · exact ((C1_amended_mutating_gates envX sEmpty 1 (.ok ()) ⟨false, false, none, none⟩
      toNumX "t" "d" "p" "q" ⟨200, none⟩ 10 "0888" ⟨"a", "b"⟩).1 (by decide)).1
  · exact ((C1_amended_mutating_gates envX sExpired 1 (.ok ()) ⟨false, false, none, none⟩
      toNumX "t" "d" "p" "q" ⟨200, none⟩ 10 "0888" ⟨"a", "b"⟩).2.1 (by decide)).1
  · exact ((C1_amended_mutating_gates envX sExpired 1 (.ok ()) ⟨false, false, none, none⟩
      toNumX "ttt" "dddddddddd" "7" "7" ⟨200, none⟩ 10 "0888" ⟨"a", "b"⟩).2.2.1
      (by decide) (by decide) (by decide)).1

/-- C3 counterexample: a concrete `createCourse` call answered with HTTP 401
clears the tokens and propagates a session-expired error, but its effect
trace contains no redirect to the login page — refuting the claim that every
request failing with 401 triggers a redirect before the error propagates. -/
theorem C3_counterexample :
    (createCourse envX sAdmin "ttt" "dddddddddd" (.num 7) (.num 7)
      (some ⟨"c.png", "image/png"⟩) (some ⟨"f.zip", "zip"⟩) ⟨401, none⟩).result =
      .error "Sessão expirada. Faça login novamente." ∧
    (createCourse envX sAdmin "ttt" "dddddddddd" (.num 7) (.num 7)
      (some ⟨"c.png", "image/png"⟩) (some ⟨"f.zip", "zip"⟩) ⟨401, none⟩).state.authTokens =
      none ∧
    ((createCourse envX sAdmin "ttt" "dddddddddd" (.num 7) (.num 7)
      (some ⟨"c.png", "image/png"⟩) (some ⟨"f.zip", "zip"⟩) ⟨401, none⟩).effects.filter
        Effect.isRedirect) = [] := by
  refine ⟨by rfl, by decide, by decide⟩

/-- C3 (amended): wrapper failures routed through `handleApiError` with a 401
status clear the token (memory and storage), toast, schedule the redirect to
`/login`, and only then propagate the session-expired error; `createCourse`
handles its own 401 with the forced logout and a propagated error but no
redirect; and `getCourses` swallows every failure — 401 included — returning
the empty list with no logout and no redirect. -/
theorem C3_amended_401_handling (env : JsEnv) (s : ClientState) (ep : String)
    (e : ApiError) (ti de : String) (pr du : JsNum) (ci cf : FileMeta)
    (d : Option String) (err : ApiError) (h4 : is401 e = true) :
    ((standardApiCall env s ep (.error e) : CallOutcome Unit).state.authTokens = none ∧
     lsGet (standardApiCall env s ep (.error e) :
       CallOutcome Unit).state.storage "auth_tokens" = none ∧
     (standardApiCall env s ep (.error e) : CallOutcome Unit).effects =
       [.request ep, .toast "Sessão expirada" "Por favor faça login novamente",
        .redirect "/login"] ∧
     (standardApiCall env s ep (.error e) : CallOutcome Unit).result =
       .error "Sessão expirada. Por favor faça login novamente.") ∧
    (¬ ti = "" → ¬ de = "" → pr.falsy = false → du.falsy = false →
      ∀ tk, (loadTokensFromStorage env s).2.authTokens = some tk → ¬ tk.access_token = "" →
      (createCourse env s ti de pr du (some ci) (some cf) ⟨401, d⟩).state.authTokens = none ∧
      lsGet (createCourse env s ti de pr du (some ci) (some cf)
        ⟨401, d⟩).state.storage "auth_tokens" = none ∧
      (createCourse env s ti de pr du (some ci) (some cf) ⟨401, d⟩).effects =
        [.request "/courses"] ∧
      (createCourse env s ti de pr du (some ci) (some cf) ⟨401, d⟩).result =
        .error "Sessão expirada. Faça login novamente.") ∧
    ((getCourses env s (.error err) : CallOutcome (List Unit)).result = .ok [] ∧
     (getCourses env s (.error err) : CallOutcome (List Unit)).state.authTokens =
       (isAuthenticated env s).2.authTokens ∧
     ((getCourses env s (.error err) : CallOutcome (List Unit)).effects.filter
        Effect.isRedirect) = []) := by
  refine ⟨?_, ?_, ?_⟩
  · unfold standardApiCall handleApiError setAuthTokens
    simp [h4, lsGet_lsRemove_self]
  · intro h1 h2 h3 h4f tk htk ha
    have hro : respOk 401 = false := by rfl
    unfold createCourse
    simp only [h1, h2, h3, h4f, htk, ha, hro, if_false, Bool.false_eq_true, or_false,
      false_or, or_self, reduceCtorEq, setAuthTokens]
    simp [lsGet_lsRemove_self]
  · unfold getCourses
    simp [Effect.isRedirect]

/-- Witness for C3 (amended) at a concrete 401 error and the concrete admin
state. -/
theorem C3_witness :
    (standardApiCall envX sAdmin "/courses/1/purchase"
      (.error ⟨some 401, none, none, none, none⟩) : CallOutcome Unit).effects =
      [.request "/courses/1/purchase",
       .toast "Sessão expirada" "Por favor faça login novamente", .redirect "/login"] ∧
    (createCourse envX sAdmin "ttt" "dddddddddd" (.num 7) (.num 7)
      (some ⟨"c.png", "image/png"⟩) (some ⟨"f.zip", "zip"⟩) ⟨401, none⟩).effects =
      [.request "/courses"] ∧
    (getCourses envX sAdmin (.error ⟨some 401, none, none, none, none⟩) :
      CallOutcome (List Unit)).result = .ok [] := by
  have h := C3_amended_401_handling envX sAdmin "/courses/1/purchase"
    ⟨some 401, none, none, none, none⟩ "ttt" "dddddddddd" (.num 7) (.num 7)
    ⟨"c.png", "image/png"⟩ ⟨"f.zip", "zip"⟩ none ⟨some 401, none, none, none, none⟩
    (by decide)
  refine ⟨h.1.2.2.1, ?_, h.2.2.1⟩
  exact (h.2.1 (by decide) (by decide) (by decide) (by decide) ⟨"adm", "Bearer"⟩
    (by decide) (by decide)).2.2.1

/-- C5 counterexample: a failing course-listing call does not propagate an
error — it substitutes the empty list as a fallback result — refuting the
claim that every wrapper aborts its action by propagating an error. -/
theorem C5_counterexample :
    isErr (getCourses envX sAdmin
      (.error ⟨some 500, none, none, some "boom", none⟩) : CallOutcome (List Unit)).result =
      false ∧
    (getCourses envX sAdmin (.error ⟨some 500, none, none, some "boom", none⟩) :
      CallOutcome (List Unit)).result = .ok [] := by
  refine ⟨by decide, by rfl⟩

/-- C5 (amended): every wrapper except the course listing is terminal on
failure — `standardApiCall`-shaped wrappers, the deposit wrapper and `login`
propagate an error, `createCourse` only reports success on an ok response —
no wrapper issues more than one request per call, and `getCourses` alone
substitutes the empty list for any failure. -/
theorem C5_amended_terminal_failures (env : JsEnv) (s : ClientState) (ep : String)
    (e : ApiError) (a : Rat) (m : String) (resp : Except ApiError Unit)
    (respT : Except ApiError AuthTokens) (respL : Except ApiError (List Unit))
    (ti de : String) (pr du : JsNum) (ci cf : Option FileMeta) (cresp : CreateResponse) :
    isErr (standardApiCall env s ep (.error e) : CallOutcome Unit).result = true ∧
    isErr (depositCall env s a m (.error e) : CallOutcome Unit).result = true ∧
    isErr (login env s (.error e)).result = true ∧
    (isErr (createCourse env s ti de pr du ci cf cresp).result = false →
      respOk cresp.status = true ∧
      (createCourse env s ti de pr du ci cf cresp).effects = [.request "/courses"]) ∧
    requestCount (standardApiCall env s ep resp).effects = 1 ∧
    requestCount (depositCall env s a m resp).effects = 1 ∧
    requestCount (login env s respT).effects = 1 ∧
    requestCount (getCourses env s respL).effects = 1 ∧
    requestCount (createCourse env s ti de pr du ci cf cresp).effects ≤ 1 ∧
    (getCourses env s (.error e) : CallOutcome (List Unit)).result = .ok [] := by
  refine ⟨?_, ?_, ?_, ?_, standardApiCall_one_request env s ep resp,
    depositCall_one_request env s a m resp, ?_, ?_, ?_, ?_⟩
  · unfold standardApiCall
    simp [isErr]
  · unfold depositCall
    simp [isErr]
  · unfold login
    simp [isErr]
  · intro hok
    unfold createCourse at hok ⊢
    by_cases hval : ti = "" ∨ de = "" ∨ pr.falsy = true ∨ du.falsy = true ∨
        ci = none ∨ cf = none
    · simp [hval, isErr] at hok
    · cases htk : (loadTokensFromStorage env s).2.authTokens with
      | none => simp [hval, htk, isErr] at hok
      | some tk =>
        by_cases ha : tk.access_token = ""
        · simp [hval, htk, ha, isErr] at hok
        · by_cases hro : respOk cresp.status = true
          · simp [hval, htk, ha, hro]
          · have hro401 : respOk 401 = false := by rfl
            by_cases h4 : cresp.status = 401 <;>
              simp [hval, htk, ha, hro, h4, hro401, isErr] at hok
  · unfold login
    cases respT with
    | ok v => simp [requestCount, Effect.isRequest]
    | error er =>
      simp only
      rw [requestCount_cons, handleApiError_no_request env _ er]
      simp [Effect.isRequest]
  · unfold getCourses
    cases respL with
    | ok v => simp [requestCount, Effect.isRequest]
    | error er => simp [requestCount, Effect.isRequest]
  · unfold createCourse
    by_cases hval : ti = "" ∨ de = "" ∨ pr.falsy = true ∨ du.falsy = true ∨
        ci = none ∨ cf = none
    · simp [hval, requestCount]
    · cases htk : (loadTokensFromStorage env s).2.authTokens with
      | none => simp [hval, htk, requestCount]
      | some tk =>
        by_cases ha : tk.access_token = ""
        · simp [hval, htk, ha, requestCount]
        · by_cases hro : respOk cresp.status = true
          · simp [hval, htk, ha, hro, requestCount, Effect.isRequest]
          · have hro401 : respOk 401 = false := by rfl
            by_cases h4 : cresp.status = 401 <;>
              simp [hval, htk, ha, hro, h4, hro401, requestCount, Effect.isRequest]
  · unfold getCourses
    simp

/-- Witness for C5 (amended) at a concrete failing purchase call. -/
theorem C5_witness :
    isErr (standardApiCall envX sAdmin "/courses/1/purchase"
      (.error ⟨some 500, none, none, some "boom", none⟩) : CallOutcome Unit).result = true ∧
    (isErr (createCourse envX sAdmin "ttt" "dddddddddd" (.num 7) (.num 7)
        (some ⟨"c.png", "image/png"⟩) (some ⟨"f.zip", "zip"⟩) ⟨200, none⟩).result = false →
      respOk (200 : Nat) = true ∧
      (createCourse envX sAdmin "ttt" "dddddddddd" (.num 7) (.num 7)
        (some ⟨"c.png", "image/png"⟩) (some ⟨"f.zip", "zip"⟩) ⟨200, none⟩).effects =
        [.request "/courses"]) := by
  have h := C5_amended_terminal_failures envX sAdmin "/courses/1/purchase"
    ⟨some 500, none, none, some "boom", none⟩ 10 "0888" (.ok ()) (.ok ⟨"adm", "Bearer"⟩)
    (.ok []) "ttt" "dddddddddd" (.num 7) (.num 7) (some ⟨"c.png", "image/png"⟩)
    (some ⟨"f.zip", "zip"⟩) ⟨200, none⟩
  exact ⟨h.1, h.2.2.2.1⟩

/-- C10 counterexample: with a submission already in flight (`isLoading`)
the guard blocks `createCourse` but silently — no toast is shown — refuting
the claim that each violated condition blocks the request with a notice. -/
theorem C10_counterexample :
    (onSubmit envX sAdmin ⟨true, false, some ⟨"c.png", "image/png"⟩, some ⟨"f.zip", "zip"⟩⟩
      toNumX "ttt" "dddddddddd" "7" "7" ⟨200, none⟩).calledCreate = false ∧
    (onSubmit envX sAdmin ⟨true, false, some ⟨"c.png", "image/png"⟩, some ⟨"f.zip", "zip"⟩⟩
      toNumX "ttt" "dddddddddd" "7" "7" ⟨200, none⟩).effects = [] := by
  refine ⟨by decide, by decide⟩

/-- C10 (amended): `onSubmit` calls `createCourse` only when no submission is
in flight or completed, `isAuthenticated()` passes, a cover image with an
allowed MIME type is selected, and a course file whose name ends in `.zip` is
selected; the duplicate-submission guard blocks silently, and each of the
other violated conditions blocks with its specific notice. -/
theorem C10_amended_submission_guards (env : JsEnv) (s : ClientState)
    (fs : CourseFormState) (toNumber : String → JsNum) (ti de pr du : String)
    (resp : CreateResponse) :
    ((onSubmit env s fs toNumber ti de pr du resp).calledCreate = true →
      fs.isLoading = false ∧ fs.submitted = false ∧ (isAuthenticated env s).1 = true ∧
      ∃ cover file, fs.coverImage = some cover ∧ fs.courseFile = some file ∧
        jsEndsWith file.name ".zip" = true ∧ imageTypeAllowed cover.type = true) ∧
    ((fs.isLoading = true ∨ fs.submitted = true) →
      onSubmit env s fs toNumber ti de pr du resp =
        { state := s, effects := [], calledCreate := false }) ∧
    (fs.isLoading = false → fs.submitted = false →
      ((isAuthenticated env s).1 = false →
        (onSubmit env s fs toNumber ti de pr du resp).calledCreate = false ∧
        (onSubmit env s fs toNumber ti de pr du resp).effects =
          [.toast "Sessão expirada" "Sua sessão expirou. Por favor, faça login novamente."]) ∧
      ((isAuthenticated env s).1 = true → fs.coverImage = none →
        (onSubmit env s fs toNumber ti de pr du resp).calledCreate = false ∧
        (onSubmit env s fs toNumber ti de pr du resp).effects =
          [.toast "Imagem obrigatória" "Você deve fazer upload de uma imagem de capa"]) ∧
      ((isAuthenticated env s).1 = true → ∀ cover, fs.coverImage = some cover →
        fs.courseFile = none →
        (onSubmit env s fs toNumber ti de pr du resp).calledCreate = false ∧
        (onSubmit env s fs toNumber ti de pr du resp).effects =
          [.toast "Arquivo obrigatório" "Você deve fazer upload de um arquivo de curso (ZIP)"]) ∧
      ((isAuthenticated env s).1 = true → ∀ cover file, fs.coverImage = some cover →
        fs.courseFile = some file → jsEndsWith file.name ".zip" = false →
        (onSubmit env s fs toNumber ti de pr du resp).calledCreate = false ∧
        (onSubmit env s fs toNumber ti de pr du resp).effects =
          [.toast "Formato inválido" "O arquivo do curso deve ser um arquivo ZIP"]) ∧
      ((isAuthenticated env s).1 = true → ∀ cover file, fs.coverImage = some cover →
        fs.courseFile = some file → jsEndsWith file.name ".zip" = true →
        imageTypeAllowed cover.type = false →
        (onSubmit env s fs toNumber ti de pr du resp).calledCreate = false ∧
        (onSubmit env s fs toNumber ti de pr du resp).effects =
          [.toast "Formato inválido" "A imagem de capa deve ser PNG ou JPEG"])) := by
  refine ⟨?_, ?_, ?_⟩
  · intro hcalled
    unfold onSubmit at hcalled
    by_cases hg : fs.isLoading || fs.submitted
    · simp [hg] at hcalled
    · have hload : fs.isLoading = false := by
        cases hL : fs.isLoading
        · rfl
        · rw [hL] at hg; simp at hg
      have hsub : fs.submitted = false := by
        cases hS : fs.submitted
        · rfl
        · rw [hS] at hg; simp at hg
      refine ⟨hload, hsub, ?_⟩
      by_cases hauth : (isAuthenticated env s).1 = false
      · simp [hg, hauth] at hcalled
      · have hauth' : (isAuthenticated env s).1 = true := by
          cases hA : (isAuthenticated env s).1
          · exact absurd hA hauth
          · rfl
        refine ⟨hauth', ?_⟩
        cases hc : fs.coverImage with
        | none => simp [hg, hauth', hc] at hcalled
        | some cover =>
          cases hf : fs.courseFile with
          | none => simp [hg, hauth', hc, hf] at hcalled
          | some file =>
            by_cases hz : jsEndsWith file.name ".zip" = false
            · simp [hg, hauth', hc, hf, hz] at hcalled
            · have hz' : jsEndsWith file.name ".zip" = true := by
                cases hZ : jsEndsWith file.name ".zip"
                · exact absurd hZ hz
                · rfl
              by_cases hi : imageTypeAllowed cover.type = false
              · simp [hg, hauth', hc, hf, hz', hi] at hcalled
              · have hi' : imageTypeAllowed cover.type = true := by
                  cases hI : imageTypeAllowed cover.type
                  · exact absurd hI hi
                  · rfl
                exact ⟨cover, file, rfl, rfl, hz', hi'⟩
  · intro hg
    unfold onSubmit
    have : (fs.isLoading || fs.submitted) = true := by
      rcases hg with h | h <;> simp [h]
    simp [this]
  · intro hload hsub
    have hg : (fs.isLoading || fs.submitted) = false := by simp [hload, hsub]
    refine ⟨?_, ?_, ?_, ?_, ?_⟩
    · intro hauth
      unfold onSubmit
      simp [hg, hauth]
    · intro hauth hc
      unfold onSubmit
      simp [hg, hauth, hc]
    · intro hauth cover hc hf
      unfold onSubmit
      simp [hg, hauth, hc, hf]
    · intro hauth cover file hc hf hz
      unfold onSubmit
      simp [hg, hauth, hc, hf, hz]
    · intro hauth cover file hc hf hz hi
      unfold onSubmit
      simp [hg, hauth, hc, hf, hz, hi]

/-- Witness for C10 (amended): a missing cover image blocks the submission
with the corresponding notice at a concrete valid-session state. -/
theorem C10_witness :
    (onSubmit envX sAdmin ⟨false, false, none, some ⟨"f.zip", "zip"⟩⟩ toNumX
      "ttt" "dddddddddd" "7" "7" ⟨200, none⟩).calledCreate = false ∧
    (onSubmit envX sAdmin ⟨false, false, none, some ⟨"f.zip", "zip"⟩⟩ toNumX
      "ttt" "dddddddddd" "7" "7" ⟨200, none⟩).effects =
      [.toast "Imagem obrigatória" "Você deve fazer upload de uma imagem de capa"] := by
  exact ((C10_amended_submission_guards envX sAdmin ⟨false, false, none, some ⟨"f.zip", "zip"⟩⟩
    toNumX "ttt" "dddddddddd" "7" "7" ⟨200, none⟩).2.2 (by decide) (by decide)).2.1
    (by decide) (by decide)

end Boolene
